import Mathlib

/-!
Shallow embedding of `umodbus/tcp.py` (micropython-modbus): the Modbus TCP
master transport (MBAP header construction, transaction id counter, response
header validation, coil byte unpacking), the slave request-poll loop of
`TCPServer.get_request`, and the request dispatcher (`ModbusTCP.process`
with its read and write access handlers).  Collaborators that live outside
the analysed source file (`const.py`, the register store of the `Modbus`
base class, the `Request` object) are modelled from the specification and
marked as such in their doc comments.
-/

namespace UModbus

/-- Modelled from the spec: function code 01, read coils (`const.py` is not
part of the analysed source; codes are the standard Modbus ones named by the
spec). -/
def READ_COILS : Nat := 0x01

/-- Modelled from the spec: function code 02, read discrete inputs. -/
def READ_DISCRETE_INPUTS : Nat := 0x02

/-- Modelled from the spec: function code 03, read holding registers. -/
def READ_HOLDING_REGISTERS : Nat := 0x03

/-- Modelled from the spec: function code 04, read input registers. -/
def READ_INPUT_REGISTER : Nat := 0x04

/-- Modelled from the spec: function code 05, write single coil. -/
def WRITE_SINGLE_COIL : Nat := 0x05

/-- Modelled from the spec: function code 06, write single register. -/
def WRITE_SINGLE_REGISTER : Nat := 0x06

/-- Modelled from the spec: exception code 01, illegal function. -/
def ILLEGAL_FUNCTION : Nat := 0x01

/-- Modelled from the spec: exception code 02, illegal data address. -/
def ILLEGAL_DATA_ADDRESS : Nat := 0x02

/-- Modelled from the spec: exception code 03, illegal data value. -/
def ILLEGAL_DATA_VALUE : Nat := 0x03

/-- Modelled from the spec: function-code bias 0x80 used by exception
responses. -/
def ERROR_BIAS : Nat := 0x80

/-- Modelled from the spec: length of the MBAP header in bytes. -/
def MBAP_HDR_LENGTH : Nat := 7

/-- Big-endian packing of one 16-bit field, as in `struct.pack` format `>H`
(MicroPython masks the value to 16 bits; all values proved about stay below
2^16, where CPython and MicroPython agree). -/
def pack16 (n : Nat) : List Nat := [n / 256 % 256, n % 256]

/-- `TCP._create_mbap_hdr`: take the current transaction counter value as
the transaction id, increment the counter (`self.trans_id_ctr += 1` in the
source, with no 16-bit mask), and pack the header with format `>HHHB` as
transaction id, protocol id 0, `len(modbus_pdu) + 1` and the slave id byte.
State-passing embedding of the mutable `trans_id_ctr` attribute: the input
counter is the first argument, the updated counter is the second component
of the result. -/
def create_mbap_hdr (trans_id_ctr : Nat) (slave_id : Nat)
    (modbus_pdu : List Nat) : (List Nat × Nat) × Nat :=
  let trans_id := trans_id_ctr
  let new_ctr := trans_id_ctr + 1
  let mbap_hdr :=
    pack16 trans_id ++ pack16 0 ++ pack16 (modbus_pdu.length + 1) ++
      [slave_id % 256]
  ((mbap_hdr, trans_id), new_ctr)

/-- Transaction counter of a fresh master transport after `n` sends
(`trans_id_ctr` starts at 0 in `TCP.__init__`; the slave id and PDU passed
here are irrelevant to the counter update). -/
def ctrAfter : Nat → Nat
  | 0 => 0
  | n + 1 => (create_mbap_hdr (ctrAfter n) 0 [0]).2

/-- Transaction id used by the (0-based) `n`-th send of a fresh master
transport. -/
def sendTransId (n : Nat) : Nat := (create_mbap_hdr (ctrAfter n) 0 [0]).1.2

/-- Frame put on the wire by `TCP._send_receive`:
`self._sock.send(mbap_hdr + modbus_pdu)`. -/
def mbapFrame (trans_id slave_id : Nat) (pdu : List Nat) : List Nat :=
  (create_mbap_hdr trans_id slave_id pdu).1.1 ++ pdu

/-- Modelled from the spec: `decode` of the MBAP codec — parse the 7-byte
header (transaction id, protocol id, length as big-endian 16-bit fields,
then the unit id byte) and return the header fields together with the
remaining payload bytes. -/
def mbapDecode (raw : List Nat) :
    Option (Nat × Nat × Nat × Nat × List Nat) :=
  match raw with
  | t1 :: t0 :: p1 :: p0 :: l1 :: l0 :: u :: rest =>
      some (t1 * 256 + t0, p1 * 256 + p0, l1 * 256 + l0, u, rest)
  | _ => none

/-- Errors raised by `TCP._validate_resp_hdr` (all `ValueError`s in the
source; `structError` stands for the `struct.error` raised when the response
is shorter than the 8 bytes unpacked with `>HHHBB`). -/
inductive RespErr where
  | structError : RespErr
  | wrongTransactionId : RespErr
  | invalidProtocolId : RespErr
  | wrongSlaveId : RespErr
  | slaveException : Nat → RespErr
deriving DecidableEq

/-- `TCP._validate_resp_hdr`: unpack `>HHHBB` from the first 8 response
bytes, then check the transaction id, protocol id, unit id and error-biased
function code in that order; on success strip 8 header bytes (9 when `count`
is set) and return the rest.  The `slaveException` error carries the value
the source interpolates into its message, namely the received function code
`rec_fc`. -/
def validate_resp_hdr (response : List Nat)
    (trans_id slave_id function_code : Nat) (count : Bool) :
    Except RespErr (List Nat) :=
  match response with
  | t1 :: t0 :: p1 :: p0 :: _l1 :: _l0 :: rec_uid :: rec_fc :: _ =>
    let rec_tid := t1 * 256 + t0
    let rec_pid := p1 * 256 + p0
    if trans_id ≠ rec_tid then Except.error RespErr.wrongTransactionId
    else if rec_pid ≠ 0 then Except.error RespErr.invalidProtocolId
    else if slave_id ≠ rec_uid then Except.error RespErr.wrongSlaveId
    else if rec_fc = function_code + ERROR_BIAS then
      Except.error (RespErr.slaveException rec_fc)
    else
      let hdr_length :=
        if count then MBAP_HDR_LENGTH + 2 else MBAP_HDR_LENGTH + 1
      Except.ok (response.drop hdr_length)
  | _ => Except.error RespErr.structError

/-- `TCP._bytes_to_bool`: unpack every byte into 8 booleans, least
significant bit first (`bool(byte & (1 << n)) for n in range(8)`). -/
def bytes_to_bool : List Nat → List Bool
  | [] => []
  | byte :: rest =>
      (List.range 8).map (fun n => byte &&& (1 <<< n) != 0) ++
        bytes_to_bool rest

/-- `TCP.read_coils` (and `read_discrete_inputs`): the list returned to the
caller is `_bytes_to_bool` applied to the validated response data, with no
truncation to the requested quantity. -/
def read_coils_result (response : List Nat) : List Bool :=
  bytes_to_bool response

/-- The four register types used as string tags by the dispatcher. -/
inductive RegType where
  | COILS : RegType
  | ISTS : RegType
  | HREGS : RegType
  | IREGS : RegType
deriving DecidableEq

/-- Python values held by the register dictionaries: booleans, integers, or
lists (list elements modelled as integers). -/
inductive PyVal where
  | bool : Bool → PyVal
  | int : Nat → PyVal
  | list : List Nat → PyVal
deriving DecidableEq

/-- Modelled from the spec: the register store of the external `Modbus` base
class (`self._register_dict`), keyed by register type and address, embedded
as one association list per register type. -/
structure Store where
  coils : List (Nat × PyVal)
  ists : List (Nat × PyVal)
  hregs : List (Nat × PyVal)
  iregs : List (Nat × PyVal)
deriving DecidableEq

/-- The dictionary of one register type, `self._register_dict[reg_type]`. -/
def Store.regDict (s : Store) : RegType → List (Nat × PyVal)
  | RegType.COILS => s.coils
  | RegType.ISTS => s.ists
  | RegType.HREGS => s.hregs
  | RegType.IREGS => s.iregs

/-- Dictionary lookup, covering both `addr in d` and `d[addr]`. -/
def alookup : List (Nat × PyVal) → Nat → Option PyVal
  | [], _ => none
  | (k, v) :: rest, a => if k = a then some v else alookup rest a

/-- Dictionary assignment `d[addr] = v`: replace the binding if the key is
present, append it otherwise. -/
def ainsert : List (Nat × PyVal) → Nat → PyVal → List (Nat × PyVal)
  | [], a, v => [(a, v)]
  | (k, w) :: rest, a, v =>
      if k = a then (a, v) :: rest else (k, w) :: ainsert rest a v

/-- Modelled from the spec: `set(register_type, address, value)` of the
external register store (`set_coil` / `set_hreg` of the `Modbus` base
class). -/
def Store.setReg (s : Store) : RegType → Nat → PyVal → Store
  | RegType.COILS, a, v => { s with coils := ainsert s.coils a v }
  | RegType.ISTS, a, v => { s with ists := ainsert s.ists a v }
  | RegType.HREGS, a, v => { s with hregs := ainsert s.hregs a v }
  | RegType.IREGS, a, v => { s with iregs := ainsert s.iregs a v }

/-- Parsed request as seen by the dispatcher: function code, register
address and raw data bytes (the external `Request` object). -/
structure Request where
  function : Nat
  register_addr : Nat
  data : List Nat
deriving DecidableEq

/-- Observable actions of one dispatcher run, in program order: normal
responses (`request.send_response`, carrying values for reads and nothing
for write confirmations), exception responses (`request.send_exception`),
register-store commits (`set_coil` / `set_hreg`), and the changed-register
notification (`_set_changed_register`). -/
inductive Event where
  | sendResponse : Option (List PyVal) → Event
  | sendException : Nat → Event
  | setStore : RegType → Nat → PyVal → Event
  | notifyChanged : RegType → Nat → PyVal → Event
deriving DecidableEq

/-- Modelled from the spec: effect of one dispatcher event on the external
register store — only commits change it. -/
def applyEvent (s : Store) : Event → Store
  | Event.setStore rt a v => s.setReg rt a v
  | _ => s

/-- Register store resulting from a dispatcher event trace. -/
def applyEvents (s : Store) (evs : List Event) : Store :=
  evs.foldl applyEvent s

/-- `ModbusTCP._create_response`: a stored list is returned as is, a scalar
is wrapped into a singleton list. -/
def create_response (v : PyVal) : List PyVal :=
  match v with
  | PyVal.list xs => xs.map PyVal.int
  | v => [v]

/-- `ModbusTCP._process_read_access`: answer with the stored value when the
address is present in the register dictionary of the requested type,
otherwise send an `ILLEGAL_DATA_ADDRESS` exception. -/
def process_read_access (store : Store) (req : Request) (rt : RegType) :
    List Event :=
  match alookup (store.regDict rt) req.register_addr with
  | some v => [Event.sendResponse (some (create_response v))]
  | none => [Event.sendException ILLEGAL_DATA_ADDRESS]

/-- Modelled from the spec: the request's "data as 16-bit words" view
(`request.data_as_registers`), big-endian byte pairs; `none` models the
unpack error on odd-length data. -/
def data_as_registers : List Nat → Option (List Nat)
  | [] => some []
  | hi :: lo :: rest =>
      (data_as_registers rest).map (fun ws => (hi * 256 + lo) :: ws)
  | _ :: [] => none

/-- `ModbusTCP._process_write_access`: coil writes accept data byte 0x00
(store `false`) or 0xFF (store `true`) and reject any other byte with
`ILLEGAL_DATA_VALUE`; holding-register writes take the first 16-bit word of
the request data; an absent address is answered with
`ILLEGAL_DATA_ADDRESS`.  On success the confirmation response is sent, then
the value committed, then the changed register recorded, in that order.
`none` models an uncaught Python error (index or unpack error on the
request data). -/
def process_write_access (store : Store) (req : Request) (rt : RegType) :
    Option (List Event) :=
  let address := req.register_addr
  if (alookup (store.regDict rt) address).isSome then
    match rt with
    | RegType.COILS =>
      match req.data with
      | [] => none
      | d0 :: _ =>
        if d0 = 0x00 then
          some [Event.sendResponse none,
                Event.setStore RegType.COILS address (PyVal.bool false),
                Event.notifyChanged RegType.COILS address (PyVal.bool false)]
        else if d0 = 0xFF then
          some [Event.sendResponse none,
                Event.setStore RegType.COILS address (PyVal.bool true),
                Event.notifyChanged RegType.COILS address (PyVal.bool true)]
        else
          some [Event.sendException ILLEGAL_DATA_VALUE]
    | RegType.HREGS =>
      match data_as_registers req.data with
      | some (v :: _) =>
          some [Event.sendResponse none,
                Event.setStore RegType.HREGS address (PyVal.int v),
                Event.notifyChanged RegType.HREGS address (PyVal.int v)]
      | _ => none
    | _ => some []
  else
    some [Event.sendException ILLEGAL_DATA_ADDRESS]

/-- `ModbusTCP.process`: map the function code to a register type and
operation through the if/elif chain, dispatch to read or write access, send
`ILLEGAL_FUNCTION` for any other code, and return `True`; `False` is
returned only when there was no request at all. -/
def process (store : Store) (request : Option Request) :
    Option (Bool × List Event) :=
  match request with
  | none => some (false, [])
  | some req =>
    if req.function = READ_COILS then
      some (true, process_read_access store req RegType.COILS)
    else if req.function = READ_DISCRETE_INPUTS then
      some (true, process_read_access store req RegType.ISTS)
    else if req.function = READ_HOLDING_REGISTERS then
      some (true, process_read_access store req RegType.HREGS)
    else if req.function = READ_INPUT_REGISTER then
      some (true, process_read_access store req RegType.IREGS)
    else if req.function = WRITE_SINGLE_COIL then
      (process_write_access store req RegType.COILS).map
        (fun evs => (true, evs))
    else if req.function = WRITE_SINGLE_REGISTER then
      (process_write_access store req RegType.HREGS).map
        (fun evs => (true, evs))
    else
      some (true, [Event.sendException ILLEGAL_FUNCTION])

/-- MicroPython `time.ticks_diff`, modelled as the plain signed difference
of the two readings (exact below the platform's 2^30 tick wrap horizon). -/
def ticks_diff (a b : Int) : Int := a - b

/-- `TCPServer.get_request` polling loop for a positive `timeout`, embedded
with explicit fuel: `clock n` is the `time.ticks_ms()` reading and
`accept n` the `_accept_request` outcome of iteration `n` (the socket-level
accept timeout passed there does not influence the loop's control flow and
is elided).  `some r` means the loop returned `r`; `none` means it was
still running when the fuel ran out.  As in the source, the loop computes
`elapsed = time.ticks_diff(start_ms, time.ticks_ms())` — the arguments in
that order — and exits with no request only when `elapsed > timeout`. -/
def get_request_loop (timeout start_ms : Int) (clock : Nat → Int)
    (accept : Nat → Option Request) : Nat → Nat → Option (Option Request)
  | 0, _ => none
  | fuel + 1, n =>
    match accept n with
    | some r => some (some r)
    | none =>
      let elapsed := ticks_diff start_ms (clock n)
      if elapsed > timeout then some none
      else get_request_loop timeout start_ms clock accept fuel (n + 1)

/-- Concrete register store used by the evaluation witnesses: a coil at
address 4, a holding register at address 10. -/
def demoStore : Store :=
  { coils := [(4, PyVal.bool true)]
    ists := []
    hregs := [(10, PyVal.int 7)]
    iregs := [] }

theorem ctrAfter_eq (n : Nat) : ctrAfter n = n := by
  induction n with
  | zero => rfl
  | succ k ih => simp [ctrAfter, create_mbap_hdr, ih]

theorem sendTransId_eq (n : Nat) : sendTransId n = n := by
  simp [sendTransId, create_mbap_hdr, ctrAfter_eq]

theorem alookup_ainsert (m : List (Nat × PyVal)) (a : Nat) (v : PyVal) :
    alookup (ainsert m a v) a = some v := by
  induction m with
  | nil => simp [ainsert, alookup]
  | cons p rest ih =>
    obtain ⟨k, w⟩ := p
    by_cases h : k = a
    · simp [ainsert, alookup, h]
    · simp [ainsert, alookup, h, ih]

/-- C1: counterexample — the transaction counter does not wrap at 2^16:
after 65536 sends of a fresh master transport it holds 65536, not
65536 mod 2^16 = 0 as the claim's wrap would require. -/
theorem C1_counter_no_wrap :
    ctrAfter 65536 = 65536 ∧ ctrAfter 65536 ≠ 65536 % 2 ^ 16 := by
  constructor
  · exact ctrAfter_eq 65536
  · rw [ctrAfter_eq]; decide

/-- C1 (amended): each send uses the current counter value as its
transaction id and the counter then increments by one with no 16-bit wrap;
within the first 65536 sends of a fresh master transport, the transaction
ids are strictly increasing modulo 2^16 and never repeat. -/
theorem C1_trans_ids (i j : Nat) (hij : i < j) (hj : j < 65536) :
    sendTransId i % 2 ^ 16 < sendTransId j % 2 ^ 16 ∧
      sendTransId i ≠ sendTransId j ∧ ctrAfter (j + 1) = ctrAfter j + 1 := by
  have h16 : (2 : Nat) ^ 16 = 65536 := by norm_num
  rw [sendTransId_eq, sendTransId_eq, ctrAfter_eq, ctrAfter_eq, h16,
    Nat.mod_eq_of_lt (lt_trans hij hj), Nat.mod_eq_of_lt hj]
  omega

/-- C1: witness for the amended theorem at sends 3 and 5. -/
theorem C1_trans_ids_w :
    sendTransId 3 % 2 ^ 16 < sendTransId 5 % 2 ^ 16 ∧
      sendTransId 3 ≠ sendTransId 5 ∧ ctrAfter 6 = ctrAfter 5 + 1 :=
  C1_trans_ids 3 5 (by decide) (by decide)

/-- C2: counterexample — for the exception response
`[0, 1, 0, 0, 0, 3, 17, 0x83, 2]` to a request with transaction id 1,
slave id 17 and function code 3, validation surfaces exception code
0x83 = 131 (the received error-biased function code), while the payload's
first byte is 2. -/
theorem C2_exc_code_cex :
    validate_resp_hdr [0, 1, 0, 0, 0, 3, 17, 131, 2] 1 17 3 false =
        Except.error (RespErr.slaveException 131) ∧
      List.drop (MBAP_HDR_LENGTH + 1) [0, 1, 0, 0, 0, 3, 17, 131, 2] =
        [2] ∧ (131 : Nat) ≠ 2 :=
  ⟨rfl, rfl, by decide⟩

/-- C2 (amended): when the transaction id, protocol id and unit id match
and the received function code equals the request function code plus
`ERROR_BIAS`, validation fails with the remote-exception error for every
payload, and the code it surfaces is the received error-biased function
code — not the payload's first byte. -/
theorem C2_remote_exception (t1 t0 uid fc l1 l0 : Nat) (rest : List Nat)
    (trans_id slave_id function_code : Nat) (count : Bool)
    (htid : trans_id = t1 * 256 + t0) (hsid : slave_id = uid)
    (hfc : fc = function_code + ERROR_BIAS) :
    validate_resp_hdr (t1 :: t0 :: 0 :: 0 :: l1 :: l0 :: uid :: fc :: rest)
        trans_id slave_id function_code count =
      Except.error (RespErr.slaveException (function_code + ERROR_BIAS)) := by
  subst htid hsid hfc
  simp [validate_resp_hdr]

/-- C2: witness for the amended theorem on a concrete exception response. -/
theorem C2_remote_exception_w :
    validate_resp_hdr [0, 7, 0, 0, 0, 3, 1, 133, 3] 7 1 5 false =
      Except.error (RespErr.slaveException (5 + ERROR_BIAS)) :=
  C2_remote_exception 0 7 1 133 0 3 [3] 7 1 5 false (by decide) rfl
    (by decide)

/-- C3: with the arguments of `ticks_diff` in the source's order, `elapsed`
is never positive while the clock moves forward, so for a positive timeout
during which no request is produced, the slave's polling loop never returns
— it does not terminate within the overall timeout. -/
theorem C3_loop_never_returns (timeout start_ms : Int) (clock : Nat → Int)
    (accept : Nat → Option Request) (hacc : ∀ k, accept k = none)
    (hclock : ∀ k, start_ms ≤ clock k) (htimeout : 0 < timeout) :
    ∀ fuel n, get_request_loop timeout start_ms clock accept fuel n = none := by
  intro fuel
  induction fuel with
  | zero => intro n; rfl
  | succ m ih =>
    intro n
    have hlt : ¬ ticks_diff start_ms (clock n) > timeout := by
      have hc := hclock n
      simp only [ticks_diff]
      omega
    simp only [get_request_loop, hacc n, if_neg hlt]
    exact ih (n + 1)

/-- C3: witness — with timeout 1000, a forward-moving clock and no incoming
request, the loop is still running after 50 iterations. -/
theorem C3_loop_never_returns_w :
    get_request_loop 1000 0 (fun k => (k : Int)) (fun _ => none) 50 0 =
      none :=
  C3_loop_never_returns 1000 0 (fun k => (k : Int)) (fun _ => none)
    (fun _ => rfl) (fun k => by show (0 : Int) ≤ (k : Int); omega)
    (by decide) 50 0

/-- C4: a write-single-coil request at an address present in the COILS
store sends a confirmation and stores `false` for data byte 0x00, sends a
confirmation and stores `true` for 0xFF, and answers any other data byte
with an `ILLEGAL_DATA_VALUE` exception leaving the store unchanged. -/
theorem C4_write_coil (store : Store) (addr d0 : Nat) (rest : List Nat)
    (hpresent : (alookup store.coils addr).isSome) :
    (d0 = 0x00 →
      process_write_access store ⟨WRITE_SINGLE_COIL, addr, d0 :: rest⟩
          RegType.COILS =
        some [Event.sendResponse none,
              Event.setStore RegType.COILS addr (PyVal.bool false),
              Event.notifyChanged RegType.COILS addr (PyVal.bool false)] ∧
      alookup (applyEvents store
          [Event.sendResponse none,
           Event.setStore RegType.COILS addr (PyVal.bool false),
           Event.notifyChanged RegType.COILS addr (PyVal.bool false)]).coils
          addr = some (PyVal.bool false)) ∧
    (d0 = 0xFF →
      process_write_access store ⟨WRITE_SINGLE_COIL, addr, d0 :: rest⟩
          RegType.COILS =
        some [Event.sendResponse none,
              Event.setStore RegType.COILS addr (PyVal.bool true),
              Event.notifyChanged RegType.COILS addr (PyVal.bool true)] ∧
      alookup (applyEvents store
          [Event.sendResponse none,
           Event.setStore RegType.COILS addr (PyVal.bool true),
           Event.notifyChanged RegType.COILS addr (PyVal.bool true)]).coils
          addr = some (PyVal.bool true)) ∧
    (d0 ≠ 0x00 → d0 ≠ 0xFF →
      process_write_access store ⟨WRITE_SINGLE_COIL, addr, d0 :: rest⟩
          RegType.COILS =
        some [Event.sendException ILLEGAL_DATA_VALUE] ∧
      applyEvents store [Event.sendException ILLEGAL_DATA_VALUE] = store) := by
  refine ⟨?_, ?_, ?_⟩
  · intro h0
    subst h0
    refine ⟨?_, ?_⟩
    · simp [process_write_access, Store.regDict, hpresent]
    · simp [applyEvents, applyEvent, Store.setReg, alookup_ainsert]
  · intro h255
    subst h255
    refine ⟨?_, ?_⟩
    · simp [process_write_access, Store.regDict, hpresent]
    · simp [applyEvents, applyEvent, Store.setReg, alookup_ainsert]
  · intro h0 h255
    refine ⟨?_, rfl⟩
    simp [process_write_access, Store.regDict, hpresent, h0, h255]

/-- C4: witness — writing data byte 0xFF to the present coil address 4 of
the demo store confirms and stores `true`. -/
theorem C4_write_coil_w :
    process_write_access demoStore ⟨WRITE_SINGLE_COIL, 4, [0xFF]⟩
        RegType.COILS =
      some [Event.sendResponse none,
            Event.setStore RegType.COILS 4 (PyVal.bool true),
            Event.notifyChanged RegType.COILS 4 (PyVal.bool true)] ∧
    alookup (applyEvents demoStore
        [Event.sendResponse none,
         Event.setStore RegType.COILS 4 (PyVal.bool true),
         Event.notifyChanged RegType.COILS 4 (PyVal.bool true)]).coils 4 =
      some (PyVal.bool true) :=
  (C4_write_coil demoStore 4 0xFF [] (by decide)).2.1 rfl

/-- C5: the MBAP encoder emits the transaction id, protocol id 0 and
`len(pdu) + 1`, each as a big-endian 16-bit field, followed by the unit id
byte and the PDU bytes, and the spec's decoder recovers all header fields
and the payload exactly (round-trip law). -/
theorem C5_mbap_round_trip (tid uid : Nat) (pdu : List Nat)
    (htid : tid < 65536) (huid : uid < 256) (hpdu : pdu ≠ [])
    (hlen : pdu.length + 1 < 65536) :
    mbapFrame tid uid pdu =
      [tid / 256, tid % 256, 0, 0, (pdu.length + 1) / 256,
        (pdu.length + 1) % 256, uid] ++ pdu ∧
    mbapDecode (mbapFrame tid uid pdu) =
      some (tid, 0, pdu.length + 1, uid, pdu) := by
  have h1 : tid / 256 % 256 = tid / 256 := Nat.mod_eq_of_lt (by omega)
  have h2 : (pdu.length + 1) / 256 % 256 = (pdu.length + 1) / 256 :=
    Nat.mod_eq_of_lt (by omega)
  have h3 : uid % 256 = uid := Nat.mod_eq_of_lt huid
  constructor
  · simp [mbapFrame, create_mbap_hdr, pack16, h1, h2, h3]
  · simp [mbapFrame, create_mbap_hdr, pack16, mbapDecode, h1, h2, h3]
    omega

/-- C5: witness for the round-trip law at transaction id 258, unit id 9 and
a three-byte PDU. -/
theorem C5_mbap_round_trip_w :
    mbapDecode (mbapFrame 258 9 [3, 0, 1]) = some (258, 0, 4, 9, [3, 0, 1]) :=
  (C5_mbap_round_trip 258 9 [3, 0, 1] (by decide) (by decide) (by decide)
    (by decide)).2

/-- C6: a read request, for any of the four register types, whose address
is absent from that type's register store is answered with exactly an
`ILLEGAL_DATA_ADDRESS` exception response and no normal response. -/
theorem C6_read_absent (store : Store) (req : Request) (rt : RegType)
    (habsent : alookup (store.regDict rt) req.register_addr = none) :
    process_read_access store req rt =
        [Event.sendException ILLEGAL_DATA_ADDRESS] ∧
      ∀ vals, Event.sendResponse vals ∉ process_read_access store req rt := by
  have h : process_read_access store req rt =
      [Event.sendException ILLEGAL_DATA_ADDRESS] := by
    simp [process_read_access, habsent]
  refine ⟨h, ?_⟩
  intro vals
  rw [h]
  simp

/-- C6: witness — reading absent address 99 from the demo store's COILS
yields the illegal-data-address exception. -/
theorem C6_read_absent_w :
    process_read_access demoStore ⟨READ_COILS, 99, []⟩ RegType.COILS =
      [Event.sendException ILLEGAL_DATA_ADDRESS] :=
  (C6_read_absent demoStore ⟨READ_COILS, 99, []⟩ RegType.COILS
    (by decide)).1

/-- C7: every successful single write to a present address — a coil write
with data byte 0x00 or 0xFF, or a holding-register write with any 16-bit
value — produces exactly the trace: confirmation response first, then the
store commit, then the changed-register notification; in particular the
store is never updated before the confirmation is sent. -/
theorem C7_send_before_commit (store : Store) (addr : Nat) :
    (∀ rest, (alookup store.coils addr).isSome →
      process_write_access store ⟨WRITE_SINGLE_COIL, addr, 0x00 :: rest⟩
          RegType.COILS =
        some [Event.sendResponse none,
              Event.setStore RegType.COILS addr (PyVal.bool false),
              Event.notifyChanged RegType.COILS addr (PyVal.bool false)]) ∧
    (∀ rest, (alookup store.coils addr).isSome →
      process_write_access store ⟨WRITE_SINGLE_COIL, addr, 0xFF :: rest⟩
          RegType.COILS =
        some [Event.sendResponse none,
              Event.setStore RegType.COILS addr (PyVal.bool true),
              Event.notifyChanged RegType.COILS addr (PyVal.bool true)]) ∧
    (∀ hi lo, (alookup store.hregs addr).isSome →
      process_write_access store ⟨WRITE_SINGLE_REGISTER, addr, [hi, lo]⟩
          RegType.HREGS =
        some [Event.sendResponse none,
              Event.setStore RegType.HREGS addr (PyVal.int (hi * 256 + lo)),
              Event.notifyChanged RegType.HREGS addr
                (PyVal.int (hi * 256 + lo))]) := by
  refine ⟨?_, ?_, ?_⟩
  · intro rest hpresent
    simp [process_write_access, Store.regDict, hpresent]
  · intro rest hpresent
    simp [process_write_access, Store.regDict, hpresent]
  · intro hi lo hpresent
    simp [process_write_access, Store.regDict, hpresent, data_as_registers]

/-- C7: witness — a holding-register write of value 300 to present address
10 of the demo store sends the confirmation before committing and
notifying. -/
theorem C7_send_before_commit_w :
    process_write_access demoStore ⟨WRITE_SINGLE_REGISTER, 10, [1, 44]⟩
        RegType.HREGS =
      some [Event.sendResponse none,
            Event.setStore RegType.HREGS 10 (PyVal.int (1 * 256 + 44)),
            Event.notifyChanged RegType.HREGS 10 (PyVal.int (1 * 256 + 44))] :=
  (C7_send_before_commit demoStore 10).2.2 1 44 (by decide)

/-- C8: a request whose function code is none of the six supported codes is
answered with an `ILLEGAL_FUNCTION` exception and nothing else, no read or
write dispatch happens (the register store is unchanged), and `process`
still reports success. -/
theorem C8_illegal_function (store : Store) (req : Request)
    (h1 : req.function ≠ READ_COILS)
    (h2 : req.function ≠ READ_DISCRETE_INPUTS)
    (h3 : req.function ≠ READ_HOLDING_REGISTERS)
    (h4 : req.function ≠ READ_INPUT_REGISTER)
    (h5 : req.function ≠ WRITE_SINGLE_COIL)
    (h6 : req.function ≠ WRITE_SINGLE_REGISTER) :
    process store (some req) =
        some (true, [Event.sendException ILLEGAL_FUNCTION]) ∧
      applyEvents store [Event.sendException ILLEGAL_FUNCTION] = store := by
  refine ⟨?_, rfl⟩
  simp [process, h1, h2, h3, h4, h5, h6]

/-- C8: witness — function code 15 (write multiple coils, unsupported by
the dispatcher) gets an illegal-function exception while `process` returns
`true`. -/
theorem C8_illegal_function_w :
    process demoStore (some ⟨15, 0, []⟩) =
      some (true, [Event.sendException ILLEGAL_FUNCTION]) :=
  (C8_illegal_function demoStore ⟨15, 0, []⟩ (by decide) (by decide)
    (by decide) (by decide) (by decide) (by decide)).1

/-- C9: response-header validation fails, returning no payload, whenever
the received transaction id differs from the one sent, or the received
protocol id is non-zero, or the received unit id differs from the addressed
slave id. -/
theorem C9_header_mismatch (t1 t0 p1 p0 l1 l0 uid fc : Nat)
    (rest : List Nat) (trans_id slave_id function_code : Nat) (count : Bool)
    (hmis : trans_id ≠ t1 * 256 + t0 ∨ p1 * 256 + p0 ≠ 0 ∨
      slave_id ≠ uid) :
    (∃ e, validate_resp_hdr
          (t1 :: t0 :: p1 :: p0 :: l1 :: l0 :: uid :: fc :: rest)
          trans_id slave_id function_code count = Except.error e ∧
        (e = RespErr.wrongTransactionId ∨ e = RespErr.invalidProtocolId ∨
          e = RespErr.wrongSlaveId)) ∧
      ∀ payload, validate_resp_hdr
          (t1 :: t0 :: p1 :: p0 :: l1 :: l0 :: uid :: fc :: rest)
          trans_id slave_id function_code count ≠ Except.ok payload := by
  have hmain : ∃ e, validate_resp_hdr
      (t1 :: t0 :: p1 :: p0 :: l1 :: l0 :: uid :: fc :: rest)
      trans_id slave_id function_code count = Except.error e ∧
      (e = RespErr.wrongTransactionId ∨ e = RespErr.invalidProtocolId ∨
        e = RespErr.wrongSlaveId) := by
    by_cases htid : trans_id ≠ t1 * 256 + t0
    · exact ⟨RespErr.wrongTransactionId,
        by simp [validate_resp_hdr, htid], Or.inl rfl⟩
    · push_neg at htid
      by_cases hpid : p1 * 256 + p0 ≠ 0
      · exact ⟨RespErr.invalidProtocolId,
          by simp [validate_resp_hdr, htid, hpid], Or.inr (Or.inl rfl)⟩
      · push_neg at hpid
        have hsid : slave_id ≠ uid := by tauto
        exact ⟨RespErr.wrongSlaveId,
          by simp [validate_resp_hdr, htid, hpid, hsid],
          Or.inr (Or.inr rfl)⟩
  refine ⟨hmain, ?_⟩
  obtain ⟨e, he, _⟩ := hmain
  intro payload hcontra
  rw [he] at hcontra
  exact Except.noConfusion hcontra

/-- C9: witness — a response carrying transaction id 2 when id 1 was sent
is rejected with one of the three header-mismatch errors. -/
theorem C9_header_mismatch_w :
    ∃ e, validate_resp_hdr [0, 2, 0, 0, 0, 3, 1, 3, 0] 1 1 3 true =
        Except.error e ∧
      (e = RespErr.wrongTransactionId ∨ e = RespErr.invalidProtocolId ∨
        e = RespErr.wrongSlaveId) :=
  (C9_header_mismatch 0 2 0 0 0 3 1 3 [0] 1 1 3 true
    (Or.inl (by decide))).1

theorem bytes_to_bool_length (bl : List Nat) :
    (bytes_to_bool bl).length = 8 * bl.length := by
  induction bl with
  | nil => rfl
  | cons b rest ih =>
    simp [bytes_to_bool, ih]
    omega

theorem bytes_to_bool_get (bl : List Nat) :
    ∀ k n : Nat, k < bl.length → n < 8 →
      (bytes_to_bool bl).get? (8 * k + n) =
        (bl.get? k).map (fun b => b &&& (1 <<< n) != 0) := by
  induction bl with
  | nil =>
    intro k n hk _
    simp at hk
  | cons b rest ih =>
    intro k n hk hn
    match k with
    | 0 =>
      simp only [Nat.mul_zero, Nat.zero_add]
      interval_cases n <;> rfl
    | k + 1 =>
      have hlen :
          ((List.range 8).map (fun m => b &&& (1 <<< m) != 0)).length = 8 := by
        simp
      have hstep : (bytes_to_bool (b :: rest)).get? (8 * (k + 1) + n) =
          (bytes_to_bool rest).get? (8 * k + n) := by
        rw [bytes_to_bool, List.get?_append_right (by omega)]
        rw [hlen]
        congr 1
        omega
      rw [hstep, ih k n (by simpa using hk) hn]
      simp

/-- C10: the boolean list returned by `read_coils` (and
`read_discrete_inputs`) unpacks every response data byte into exactly 8
booleans, least-significant bit first: its length is always 8 times the
number of response data bytes, so for a response of `(qty + 7) / 8` data
bytes it is never truncated to the requested quantity `qty` and carries at
most 7 trailing padding booleans beyond it. -/
theorem C10_read_coils_unpack (response : List Nat) :
    (read_coils_result response).length = 8 * response.length ∧
    (∀ k n : Nat, k < response.length → n < 8 →
      (read_coils_result response).get? (8 * k + n) =
        (response.get? k).map (fun b => b &&& (1 <<< n) != 0)) ∧
    (∀ qty, response.length = (qty + 7) / 8 →
      qty ≤ (read_coils_result response).length ∧
        (read_coils_result response).length < qty + 8) := by
  refine ⟨bytes_to_bool_length response, bytes_to_bool_get response, ?_⟩
  intro qty hq
  have hl : (read_coils_result response).length = 8 * response.length :=
    bytes_to_bool_length response
  rw [hl, hq]
  omega

/-- C10: witness — the single response byte 5 unpacks to 8 booleans whose
bit at position 2 is the third-least-significant bit of 5. -/
theorem C10_read_coils_unpack_w :
    (read_coils_result [5]).get? (8 * 0 + 2) =
      (List.get? [5] 0).map (fun b => b &&& (1 <<< 2) != 0) :=
  (C10_read_coils_unpack [5]).2.1 0 2 (by decide) (by decide)

end UModbus
